import Mathlib

/-!
Verification development for the Virtuals ACP adapter (plugin-virtuals-acp).

The TypeScript service is a thin routing layer: an inbound job callback
(handleNewTask) looks up a per-job-type configuration and dispatches either to
a caller-supplied handler or to an AI delegation path (processJobWithEliza /
processJobWithElizaAI); a startup bootstrapper (setupClientWithRetry) retries
client construction with exponential backoff; a handful of methods forward
straight to the external protocol client.

The embedding below mirrors src/src/service.ts and src/src/helper.ts.  External
collaborators (the protocol client, the agent runtime, the inference pipeline)
are modelled as oracles inside an environment record; every observable action
of the adapter (log lines, outbound protocol calls, client calls, sleeps) is
recorded in an effect trace, and a raised failure is the second component of
the result (none means the function returned normally).  Outbound protocol
calls made on the job object (accept, reject, createRequirement, deliver) are
modelled as always-succeeding effects: their results are not inspected by the
adapter code.  Errors are modelled by their message strings.
-/

namespace VirtualsAcp

/-- Phases of an ACP job, as defined by the external acp-node library.
Only identity comparisons matter to the adapter. -/
inductive AcpJobPhases
  | REQUEST
  | NEGOTIATION
  | TRANSACTION
  | EVALUATION
  | COMPLETED
  | REJECTED
  | EXPIRED
deriving DecidableEq, Repr

/-- Printable phase name, mirroring the indexed enum access in the log lines. -/
def phaseName : AcpJobPhases → String
  | .REQUEST => "REQUEST"
  | .NEGOTIATION => "NEGOTIATION"
  | .TRANSACTION => "TRANSACTION"
  | .EVALUATION => "EVALUATION"
  | .COMPLETED => "COMPLETED"
  | .REJECTED => "REJECTED"
  | .EXPIRED => "EXPIRED"

/-- The deliverable payload built in processJobWithElizaAI:
a record with a type tag and a textual value. -/
structure Deliverable where
  type : String
  value : String
deriving DecidableEq, Repr

/-- An observable action of the adapter; the semantics of every function is a
trace of these, in execution order. -/
inductive Effect
  | logInfo (msg : String)
  | logWarn (msg : String)
  | logError (msg : String)
  | logSuccess (msg : String)
  /-- A call into the external protocol client (forwarding methods and the
  account lookup); the string names the client method. -/
  | clientCall (method : String)
  /-- job.accept(reason) -/
  | jobAccept (reason : String)
  /-- job.reject(reason) -/
  | jobReject (reason : String)
  /-- job.createRequirement(text) -/
  | jobCreateRequirement (text : String)
  /-- job.deliver(payload) -/
  | jobDeliver (payload : Deliverable)
  /-- runtime.ensureConnection -/
  | runtimeEnsureConnection
  /-- runtime.emitEvent(MESSAGE_RECEIVED, ...) -/
  | runtimeEmitEvent
  /-- runtime.createMemory(responseMemory, "messages") -/
  | runtimeCreateMemory
  /-- the i-th construction attempt inside setupClientWithRetry (zero-indexed) -/
  | setupAttempt (i : Nat)
  /-- await of the backoff delay, in milliseconds -/
  | sleep (ms : Nat)
deriving DecidableEq, Repr

/-- A read-only view of an ACP job as the adapter consumes it. -/
structure AcpJob where
  id : Nat
  phase : AcpJobPhases
  name : Option String
  requirement : String
  clientAddress : Option String

/-- A read-only view of a signing memo. -/
structure AcpMemo where
  id : Nat
  nextPhase : Option AcpJobPhases
  type : String
  content : String

/-- Configuration for one job type (src/src/types.ts, JobTypeConfig).  The
handlerType field is a runtime string: the TypeScript type lists only
"eliza" and "predetermined" but the router receives arbitrary values.  A
predetermined handler is an oracle returning its own effect trace and an
optional raised failure. -/
structure JobTypeConfig where
  handlerType : String
  handler : Option (AcpJob → Option AcpMemo → List Effect × Option String)

/-- The job-type registry as a mapping from job-type name to configuration. -/
def Registry : Type := String → Option JobTypeConfig

/-- Default job type registry (src/src/helper.ts, createDefaultJobTypeRegistry):
currently empty. -/
def createDefaultJobTypeRegistry : Registry := fun _ => none

/-- JavaScript object-spread merge of two registries, as used both by the
constructor and by updateJobTypeRegistry: for every key, the update entry
wins as a whole; keys absent from the update keep the base entry. -/
def mergeRegistry (base update : Registry) : Registry := fun k =>
  match update k with
  | some v => some v
  | none => base k

/-- updateJobTypeRegistry (src/src/service.ts): replaces the current registry
with the spread of the current registry and the update. -/
def updateJobTypeRegistry (current update : Registry) : Registry :=
  mergeRegistry current update

/-- The registry computed by the AcpService constructor: the default registry
spread with the supplied configuration registry (or with the empty object when
no configuration or no registry field is supplied). -/
def constructorRegistry (config : Option Registry) : Registry :=
  mergeRegistry createDefaultJobTypeRegistry
    (match config with
     | some r => r
     | none => fun _ => none)

/-- Outcome of one interaction with the external inference pipeline, seen from
processJobWithElizaAI: the connection step may throw, the event emission may
throw, or the single-shot reply callback is eventually invoked with a content
text (none models an absent text field) and the persistence of the response
memory inside the callback may itself throw. -/
inductive PipelineOutcome
  | connectionFailure (e : String)
  | emitFailure (e : String)
  | reply (text : Option String) (memoryError : Option String)

/-- Oracles for the external protocol client methods the service forwards to.
Result payloads are opaque handles (naturals / lists of naturals). -/
structure AcpClientModel where
  getActiveJobs : Option Nat → Option Nat → Except String (List Nat)
  getCompletedJobs : Option Nat → Option Nat → Except String (List Nat)
  getCancelledJobs : Option Nat → Option Nat → Except String (List Nat)
  getPendingMemoJobs : Option Nat → Option Nat → Except String (List Nat)
  getJobById : Nat → Except String (Option Nat)
  getMemoById : Nat → Nat → Except String (Option Nat)
  getAccountByJobId : Nat → Except String Nat
  getByClientAndProvider : String → String → Except String Nat

/-- The environment of one service instance: the external client, the pipeline
behaviour for the next submission, the capability check the dispatcher
consults (the shipped implementation is checkElizaCapability below), and the
effective job-type registry. -/
structure Env where
  client : AcpClientModel
  pipeline : PipelineOutcome
  capability : AcpJob → Bool
  registry : Registry

/-- Registered service name (src/src/service.ts, ACP_SERVICE_NAME). -/
def ACP_SERVICE_NAME : String := "virtuals-acp"

/-- checkElizaCapability (src/src/service.ts): the current implementation
accepts every job routed to Eliza. -/
def checkElizaCapability (_job : AcpJob) : Bool := true

/-- JavaScript truthiness of the optional content.text checked by the reply
callback: undefined and the empty string are falsy. -/
def contentTextTruthy : Option String → Bool
  | none => false
  | some s => !s.isEmpty

/-- JavaScript Number coercion of the string job identifiers, on the numeric
strings the service itself produces. -/
def strToNum (s : String) : Nat := (s.toNat?).getD 0

/-- String rendering of an optional string, as JavaScript template literals
render undefined. -/
def optStr : Option String → String
  | some s => s
  | none => "undefined"

/-- The proposed next phase carried on an optional memo. -/
def nextPhaseOf (memoToSign : Option AcpMemo) : Option AcpJobPhases :=
  memoToSign.bind (fun m => m.nextPhase)

/-- processJobWithElizaAI (src/src/service.ts): ensures the runtime connection,
emits a MESSAGE_RECEIVED event and suspends on a promise resolved by the reply
callback.  The callback resolves null on falsy text; on truthy text it builds
the deliverable, persists a response memory (a failure there is caught inside
the callback, logged and resolved as null) and resolves the deliverable.  A
failure thrown by the connection step or the event emission rejects the
promise, so the function raises. -/
def processJobWithElizaAI (env : Env) (_job : AcpJob) (_memoToSign : Option AcpMemo) :
    List Effect × Except String (Option Deliverable) :=
  match env.pipeline with
  | PipelineOutcome.connectionFailure e =>
      ([Effect.runtimeEnsureConnection], Except.error e)
  | PipelineOutcome.emitFailure e =>
      ([Effect.runtimeEnsureConnection, Effect.runtimeEmitEvent], Except.error e)
  | PipelineOutcome.reply text memoryError =>
      if contentTextTruthy text then
        match memoryError with
        | some _ =>
            ([Effect.runtimeEnsureConnection, Effect.runtimeEmitEvent,
              Effect.runtimeCreateMemory, Effect.logError "Error in Eliza callback"],
             Except.ok none)
        | none =>
            ([Effect.runtimeEnsureConnection, Effect.runtimeEmitEvent,
              Effect.runtimeCreateMemory],
             Except.ok (some { type := "text", value := text.getD "" }))
      else
        ([Effect.runtimeEnsureConnection, Effect.runtimeEmitEvent], Except.ok none)

/-- processJobWithEliza (src/src/service.ts): phase-keyed dispatch of the AI
delegation path.  The whole body is inside a try/catch whose handler only
logs, so this function never raises and its semantics is a bare trace. -/
def processJobWithEliza (env : Env) (job : AcpJob) (memoToSign : Option AcpMemo) :
    List Effect :=
  let jobIdStr := toString job.id
  if job.phase = AcpJobPhases.REQUEST ∧
      nextPhaseOf memoToSign = some AcpJobPhases.NEGOTIATION then
    Effect.logInfo ("[Eliza ACP] REQUEST phase for job " ++ jobIdStr ++
        ", routing to Eliza for capability check") ::
    (if env.capability job then
      [Effect.jobAccept "Job requirement matches agent capability",
       Effect.jobCreateRequirement
         ("Job " ++ jobIdStr ++ " accepted, please make payment to proceed"),
       Effect.logSuccess
         ("[Eliza ACP] Job " ++ jobIdStr ++ " accepted and requirement created")]
    else
      [Effect.jobReject "Job requirement does not meet agent capability",
       Effect.logWarn ("[Eliza ACP] Job " ++ jobIdStr ++ " rejected by capability check")])
  else if job.phase = AcpJobPhases.TRANSACTION ∧
      nextPhaseOf memoToSign = some AcpJobPhases.EVALUATION then
    let r := processJobWithElizaAI env job memoToSign
    Effect.logInfo ("[Eliza ACP] TRANSACTION phase for job " ++ jobIdStr ++
        ", processing with Eliza") ::
    r.1 ++
    (match r.2 with
     | Except.error _ => [Effect.logError "Error in processJobWithEliza"]
     | Except.ok (some d) =>
        [Effect.jobDeliver d,
         Effect.logSuccess ("[Eliza ACP] Job " ++ jobIdStr ++ " delivered")]
     | Except.ok none =>
        [Effect.jobReject "Unable to process job requirement",
         Effect.logError ("[Eliza ACP] Job " ++ jobIdStr ++ " rejected - no deliverable")])
  else
    [Effect.logWarn ("[Eliza ACP] Unhandled phase combination for job " ++ jobIdStr ++
      ": phase=" ++ phaseName job.phase ++ ", nextPhase=" ++
      (match nextPhaseOf memoToSign with
       | some p => phaseName p
       | none => "undefined"))]

/-- getAccountByJobId (src/src/service.ts): forwards to the client with Number
coercion of the job id; a client failure is logged and re-raised unchanged. -/
def getAccountByJobId (env : Env) (jobId : String) :
    List Effect × Except String Nat :=
  match env.client.getAccountByJobId (strToNum jobId) with
  | Except.ok v => ([Effect.clientCall "getAccountByJobId"], Except.ok v)
  | Except.error e =>
      ([Effect.clientCall "getAccountByJobId",
        Effect.logError "Error getting account by job ID:"], Except.error e)

/-- The entry log line of handleNewTask (the SERVICE DEBUG line). -/
def onNewTaskDebugMsg (job : AcpJob) (memoToSign : Option AcpMemo) : String :=
  "[SERVICE DEBUG] onNewTask called - jobId: " ++ toString job.id ++
  ", phase: " ++ phaseName job.phase ++
  ", jobName: " ++ optStr job.name ++
  ", memoId: " ++ (match memoToSign with
                   | some m => toString m.id
                   | none => "undefined") ++
  ", nextPhase: " ++ (match nextPhaseOf memoToSign with
                      | some p => phaseName p
                      | none => "undefined") ++
  ", memoType: " ++ (match memoToSign with
                     | some m => m.type
                     | none => "undefined") ++
  ", content: " ++ (match memoToSign with
                    | some m => m.content
                    | none => "undefined")

/-- The job-type configuration lookup of handleNewTask: a falsy job name
(undefined or the empty string) short-circuits to null, otherwise the registry
is indexed by the name. -/
def lookupJobType (registry : Registry) (name : Option String) :
    Option JobTypeConfig :=
  match name with
  | some n => if n = "" then none else registry n
  | none => none

/-- handleNewTask (src/src/service.ts): the routing entry point.  It logs the
debug line, performs the account lookup through getAccountByJobId (a failure
there propagates), logs the account, looks up the job-type configuration (a
falsy job name yields none) and dispatches on handlerType. -/
def handleNewTask (env : Env) (job : AcpJob) (memoToSign : Option AcpMemo) :
    List Effect × Option String :=
  let acct := getAccountByJobId env (toString job.id)
  match acct.2 with
  | Except.error e =>
      (Effect.logInfo (onNewTaskDebugMsg job memoToSign) :: acct.1, some e)
  | Except.ok a =>
    let pre := Effect.logInfo (onNewTaskDebugMsg job memoToSign) :: acct.1 ++
               [Effect.logInfo ("[DCA DEBUG] job Account: " ++ toString a)]
    match lookupJobType env.registry job.name with
    | none =>
        (pre ++ [Effect.logWarn
          ("[handleNewTask] No configuration found for job type: " ++ optStr job.name)],
         none)
    | some cfg =>
      if cfg.handlerType = "predetermined" then
        match cfg.handler with
        | some h =>
          let r := h job memoToSign
          match r.2 with
          | some _ =>
              (pre ++ r.1 ++ [Effect.logError
                ("[handleNewTask] Error in predetermined handler for " ++
                  optStr job.name ++ ":")], none)
          | none => (pre ++ r.1, none)
        | none =>
            (pre ++ [Effect.logWarn
              ("[handleNewTask] No handler function provided for predetermined job type: " ++
                optStr job.name)], none)
      else if cfg.handlerType = "eliza" then
        (pre ++ processJobWithEliza env job memoToSign, none)
      else
        (pre, none)

/-- getActiveJobs (src/src/service.ts): pass-through pagination query; a
client failure is logged and re-raised unchanged. -/
def getActiveJobs (env : Env) (page pageSize : Option Nat) :
    List Effect × Except String (List Nat) :=
  match env.client.getActiveJobs page pageSize with
  | Except.ok v => ([Effect.clientCall "getActiveJobs"], Except.ok v)
  | Except.error e =>
      ([Effect.clientCall "getActiveJobs",
        Effect.logError "Error getting active jobs:"], Except.error e)

/-- getCompletedJobs (src/src/service.ts): pass-through pagination query. -/
def getCompletedJobs (env : Env) (page pageSize : Option Nat) :
    List Effect × Except String (List Nat) :=
  match env.client.getCompletedJobs page pageSize with
  | Except.ok v => ([Effect.clientCall "getCompletedJobs"], Except.ok v)
  | Except.error e =>
      ([Effect.clientCall "getCompletedJobs",
        Effect.logError "Error getting completed jobs:"], Except.error e)

/-- getCancelledJobs (src/src/service.ts): pass-through pagination query. -/
def getCancelledJobs (env : Env) (page pageSize : Option Nat) :
    List Effect × Except String (List Nat) :=
  match env.client.getCancelledJobs page pageSize with
  | Except.ok v => ([Effect.clientCall "getCancelledJobs"], Except.ok v)
  | Except.error e =>
      ([Effect.clientCall "getCancelledJobs",
        Effect.logError "Error getting cancelled jobs:"], Except.error e)

/-- getPendingMemoJobs (src/src/service.ts): pass-through pagination query. -/
def getPendingMemoJobs (env : Env) (page pageSize : Option Nat) :
    List Effect × Except String (List Nat) :=
  match env.client.getPendingMemoJobs page pageSize with
  | Except.ok v => ([Effect.clientCall "getPendingMemoJobs"], Except.ok v)
  | Except.error e =>
      ([Effect.clientCall "getPendingMemoJobs",
        Effect.logError "Error getting pending memo jobs:"], Except.error e)

/-- getJobById (src/src/service.ts): pass-through lookup with Number coercion
of the string job id. -/
def getJobById (env : Env) (jobId : String) :
    List Effect × Except String (Option Nat) :=
  match env.client.getJobById (strToNum jobId) with
  | Except.ok v => ([Effect.clientCall "getJobById"], Except.ok v)
  | Except.error e =>
      ([Effect.clientCall "getJobById",
        Effect.logError "Error getting job by ID:"], Except.error e)

/-- getMemoById (src/src/service.ts): pass-through lookup with Number coercion
of both string identifiers. -/
def getMemoById (env : Env) (jobId memoId : String) :
    List Effect × Except String (Option Nat) :=
  match env.client.getMemoById (strToNum jobId) (strToNum memoId) with
  | Except.ok v => ([Effect.clientCall "getMemoById"], Except.ok v)
  | Except.error e =>
      ([Effect.clientCall "getMemoById",
        Effect.logError "Error getting memo by ID:"], Except.error e)

/-- getByClientAndProvider (src/src/service.ts): pass-through account lookup
by the two addresses. -/
def getByClientAndProvider (env : Env) (clientAddress providerAddress : String) :
    List Effect × Except String Nat :=
  match env.client.getByClientAndProvider clientAddress providerAddress with
  | Except.ok v => ([Effect.clientCall "getByClientAndProvider"], Except.ok v)
  | Except.error e =>
      ([Effect.clientCall "getByClientAndProvider",
        Effect.logError "Error getting account by addresses:"], Except.error e)

/-- The retry loop body of setupClientWithRetry, structured on the number of
attempts still allowed (remaining = maxRetries - i).  Each iteration performs
the i-th construction attempt through the setup oracle; on success it logs and
returns, on failure it logs, and either sleeps 2^i seconds and recurses (when
further attempts remain, the i < maxRetries - 1 branch of the source) or
re-raises the failure of the final attempt. -/
def setupLoop (setup : Nat → Except String Unit) (i : Nat) :
    Nat → List Effect × Option String
  | 0 => ([], none)
  | remaining + 1 =>
    match setup i with
    | Except.ok _ =>
        ([Effect.setupAttempt i, Effect.logInfo "ACP client connected successfully"], none)
    | Except.error e =>
      let pre := [Effect.setupAttempt i,
                  Effect.logError
                    ("ACP client connection attempt " ++ toString (i + 1) ++ " failed:")]
      match remaining with
      | 0 => (pre, some e)
      | r + 1 =>
        let d := 2 ^ i * 1000
        let rest := setupLoop setup (i + 1) (r + 1)
        (pre ++ [Effect.sleep d,
                 Effect.logInfo ("Retrying in " ++ toString d ++ "ms...")] ++ rest.1,
         rest.2)

/-- setupClientWithRetry (src/src/service.ts): up to maxRetries construction
attempts (default 3) with exponential backoff between them. -/
def setupClientWithRetry (setup : Nat → Except String Unit)
    (maxRetries : Nat := 3) : List Effect × Option String :=
  setupLoop setup 0 maxRetries

/-- AcpService.start (src/src/service.ts): constructs the service and runs the
connection bootstrap; a bootstrap failure is logged and re-raised wrapped in a
message naming the registered service. -/
def startService (setup : Nat → Except String Unit) : List Effect × Option String :=
  let r := setupClientWithRetry setup
  match r.2 with
  | none =>
      (Effect.logInfo "Constructing new AcpService..." :: r.1 ++
        [Effect.logSuccess "ACP service started successfully"], none)
  | some e =>
      (Effect.logInfo "Constructing new AcpService..." :: r.1 ++
        [Effect.logError "Failed to start ACP service:"],
       some ("Failed to register service " ++ ACP_SERVICE_NAME ++ ": " ++ e))

/-- Is this effect one of the four outbound protocol calls made on the job
object (accept, reject, createRequirement, deliver)? -/
def isJobProtocolCall : Effect → Bool
  | Effect.jobAccept _ => true
  | Effect.jobReject _ => true
  | Effect.jobCreateRequirement _ => true
  | Effect.jobDeliver _ => true
  | _ => false

/-- Is this effect a call into the external protocol client? -/
def isClientCall : Effect → Bool
  | Effect.clientCall _ => true
  | _ => false

/-- The subtrace of outbound protocol calls made on the job object. -/
def protocolCalls (t : List Effect) : List Effect := t.filter isJobProtocolCall

def isAcceptCall : Effect → Bool
  | Effect.jobAccept _ => true
  | _ => false

def isRejectCall : Effect → Bool
  | Effect.jobReject _ => true
  | _ => false

def isDeliverCall : Effect → Bool
  | Effect.jobDeliver _ => true
  | _ => false

def isCreateRequirementCall : Effect → Bool
  | Effect.jobCreateRequirement _ => true
  | _ => false

def acceptCount (t : List Effect) : Nat := (t.filter isAcceptCall).length

def rejectCount (t : List Effect) : Nat := (t.filter isRejectCall).length

def deliverCount (t : List Effect) : Nat := (t.filter isDeliverCall).length

def createRequirementCount (t : List Effect) : Nat :=
  (t.filter isCreateRequirementCall).length

def isSetupAttempt : Effect → Bool
  | Effect.setupAttempt _ => true
  | _ => false

/-- Number of client-construction attempts recorded in a trace. -/
def attemptCount (t : List Effect) : Nat := (t.filter isSetupAttempt).length

/-- The backoff delays recorded in a trace, in milliseconds, in order. -/
def sleeps (t : List Effect) : List Nat :=
  t.filterMap (fun e => match e with
    | Effect.sleep ms => some ms
    | _ => none)

/-- Is this effect a log line (any level)? -/
def isLog : Effect → Bool
  | Effect.logInfo _ => true
  | Effect.logWarn _ => true
  | Effect.logError _ => true
  | Effect.logSuccess _ => true
  | _ => false

/-! Concrete fixtures used to instantiate the theorems below. -/

/-- A client whose every method succeeds with a fixed handle. -/
def okClient : AcpClientModel where
  getActiveJobs := fun _ _ => Except.ok [1, 2]
  getCompletedJobs := fun _ _ => Except.ok [3]
  getCancelledJobs := fun _ _ => Except.ok []
  getPendingMemoJobs := fun _ _ => Except.ok [4]
  getJobById := fun _ => Except.ok (some 5)
  getMemoById := fun _ _ => Except.ok (some 6)
  getAccountByJobId := fun _ => Except.ok 7
  getByClientAndProvider := fun _ _ => Except.ok 8

/-- A client whose every method fails with a fixed message. -/
def failClient : AcpClientModel where
  getActiveJobs := fun _ _ => Except.error "client failure"
  getCompletedJobs := fun _ _ => Except.error "client failure"
  getCancelledJobs := fun _ _ => Except.error "client failure"
  getPendingMemoJobs := fun _ _ => Except.error "client failure"
  getJobById := fun _ => Except.error "client failure"
  getMemoById := fun _ _ => Except.error "client failure"
  getAccountByJobId := fun _ => Except.error "rpc down"
  getByClientAndProvider := fun _ _ => Except.error "client failure"

/-- A sample job in the REQUEST phase whose type name is not in any registry
used below. -/
def jobUnknown : AcpJob :=
  { id := 1, phase := AcpJobPhases.REQUEST, name := some "unknown-type",
    requirement := "r", clientAddress := none }

/-- A sample job in the TRANSACTION phase routed to Eliza. -/
def jobTx : AcpJob :=
  { id := 9, phase := AcpJobPhases.TRANSACTION, name := some "general-query",
    requirement := "do the thing", clientAddress := some "0xclient" }

/-- A sample job in the REQUEST phase routed to Eliza. -/
def jobReq : AcpJob :=
  { id := 11, phase := AcpJobPhases.REQUEST, name := some "general-query",
    requirement := "please quote", clientAddress := some "0xclient" }

/-- A memo proposing the EVALUATION phase. -/
def memoEval : AcpMemo :=
  { id := 3, nextPhase := some AcpJobPhases.EVALUATION, type := "OBJECT_URL",
    content := "payload" }

/-- A memo proposing the NEGOTIATION phase. -/
def memoNeg : AcpMemo :=
  { id := 2, nextPhase := some AcpJobPhases.NEGOTIATION, type := "MESSAGE",
    content := "offer" }

/-- A configuration entry with an unrecognized handlerType. -/
def cfgBogus : JobTypeConfig := { handlerType := "bogus", handler := none }

/-- A configuration entry routing to Eliza. -/
def cfgEliza : JobTypeConfig := { handlerType := "eliza", handler := none }

/-- A predetermined handler that performs one protocol call and then raises. -/
def throwingHandler : AcpJob → Option AcpMemo → List Effect × Option String :=
  fun _ _ => ([Effect.jobAccept "from handler"], some "handler blew up")

/-- A configuration entry with a predetermined handler that raises. -/
def cfgThrowing : JobTypeConfig :=
  { handlerType := "predetermined", handler := some throwingHandler }

/-- A sample registry for one-key lookups. -/
def sampleRegistry : Registry := fun k =>
  if k = "general-query" then some cfgEliza
  else if k = "custom" then some cfgBogus
  else if k = "fixed" then some cfgThrowing
  else none

/-- Environment: healthy client, pipeline replies with text and persistence
succeeds. -/
def envReplyOk : Env :=
  { client := okClient, pipeline := PipelineOutcome.reply (some "the answer") none,
    capability := checkElizaCapability, registry := sampleRegistry }

/-- Environment: the account lookup fails; the registry is empty. -/
def envAccountDown : Env :=
  { client := failClient, pipeline := PipelineOutcome.reply none none,
    capability := checkElizaCapability, registry := createDefaultJobTypeRegistry }

/-- Environment: healthy client, empty registry. -/
def envEmptyRegistry : Env :=
  { client := okClient, pipeline := PipelineOutcome.reply none none,
    capability := checkElizaCapability, registry := createDefaultJobTypeRegistry }

/-- Environment: connection setup towards the runtime fails during submission. -/
def envConnFail : Env :=
  { client := okClient, pipeline := PipelineOutcome.connectionFailure "ensureConnection failed",
    capability := checkElizaCapability, registry := sampleRegistry }

/-- Environment: the pipeline replies with text but persisting the response
memory raises inside the callback. -/
def envMemoryFail : Env :=
  { client := okClient, pipeline := PipelineOutcome.reply (some "the answer") (some "db down"),
    capability := checkElizaCapability, registry := sampleRegistry }

/-- Environment: the pipeline reply carries no text. -/
def envEmptyReply : Env :=
  { client := okClient, pipeline := PipelineOutcome.reply none none,
    capability := checkElizaCapability, registry := sampleRegistry }

/-- Environment: a capability function that rejects every job (exercising the
non-permit branch of the dispatcher). -/
def envNoCapability : Env :=
  { client := okClient, pipeline := PipelineOutcome.reply none none,
    capability := fun _ => false, registry := sampleRegistry }

/-- A setup oracle that always fails, naming the attempt. -/
def alwaysFailSetup : Nat → Except String Unit :=
  fun i => Except.error ("construction failed at attempt " ++ toString i)

/-- A setup oracle that fails once and then succeeds. -/
def failOnceSetup : Nat → Except String Unit :=
  fun i => if i = 0 then Except.error "first attempt failed" else Except.ok ()

/-- A setup oracle that succeeds immediately. -/
def alwaysOkSetup : Nat → Except String Unit := fun _ => Except.ok ()

/-- A setup oracle that fails twice and then succeeds. -/
def failTwiceSetup : Nat → Except String Unit :=
  fun i => if i < 2 then Except.error ("attempt " ++ toString i ++ " failed")
           else Except.ok ()

/-- A sample job whose type name maps to the unrecognized handlerType entry. -/
def jobCustom : AcpJob :=
  { id := 42, phase := AcpJobPhases.REQUEST, name := some "custom",
    requirement := "r", clientAddress := none }

/-- A sample job whose type name maps to the raising predetermined handler. -/
def jobFixed : AcpJob :=
  { id := 5, phase := AcpJobPhases.REQUEST, name := some "fixed",
    requirement := "r", clientAddress := none }

/-- A one-key registry used by the merge witnesses. -/
def regBaseSample : Registry := fun k =>
  if k = "a" then some cfgEliza else none

/-- An update registry overriding the same key with a whole new entry. -/
def regUpdateSample : Registry := fun k =>
  if k = "a" then some cfgBogus else none

/-! Theorems settling the claims. -/

/-- C6: the registry merge performed by updateJobTypeRegistry is idempotent —
applying the same update twice yields the same mapping as applying it once —
and every key present in the update is replaced by the whole update entry
(never field-wise merged), while keys absent from the update keep their
current entry. -/
theorem updateJobTypeRegistry_idempotent :
    (∀ (R U : Registry),
      updateJobTypeRegistry (updateJobTypeRegistry R U) U = updateJobTypeRegistry R U) ∧
    (∀ (R U : Registry) (k : String) (v : JobTypeConfig),
      U k = some v → updateJobTypeRegistry R U k = some v) ∧
    (∀ (R U : Registry) (k : String),
      U k = none → updateJobTypeRegistry R U k = R k) := by
  refine ⟨?_, ?_, ?_⟩
  · intro R U
    funext k
    simp only [updateJobTypeRegistry, mergeRegistry]
    cases U k <;> rfl
  · intro R U k v h
    simp only [updateJobTypeRegistry, mergeRegistry, h]
  · intro R U k h
    simp only [updateJobTypeRegistry, mergeRegistry, h]

/-- Witness for C6 at a concrete registry and update: the double application
coincides with the single one and the shared key carries the whole update
entry. -/
theorem updateJobTypeRegistry_idempotent_witness :
    updateJobTypeRegistry (updateJobTypeRegistry regBaseSample regUpdateSample)
        regUpdateSample =
      updateJobTypeRegistry regBaseSample regUpdateSample ∧
    updateJobTypeRegistry regBaseSample regUpdateSample "a" = some cfgBogus ∧
    updateJobTypeRegistry regBaseSample regUpdateSample "b" = regBaseSample "b" :=
  ⟨updateJobTypeRegistry_idempotent.1 regBaseSample regUpdateSample,
   updateJobTypeRegistry_idempotent.2.1 regBaseSample regUpdateSample "a" cfgBogus rfl,
   updateJobTypeRegistry_idempotent.2.2 regBaseSample regUpdateSample "b" rfl⟩

/-- C9: the registry computed by the service constructor is the default
registry overridden key-by-key by the supplied configuration registry — a key
present in the configuration wins with its whole entry, a key absent from the
configuration keeps the default entry — and supplying no configuration yields
exactly the default registry. -/
theorem constructorRegistry_spec :
    (∀ (cfg : Registry) (k : String) (v : JobTypeConfig),
      cfg k = some v → constructorRegistry (some cfg) k = some v) ∧
    (∀ (cfg : Registry) (k : String),
      cfg k = none → constructorRegistry (some cfg) k = createDefaultJobTypeRegistry k) ∧
    constructorRegistry none = createDefaultJobTypeRegistry := by
  refine ⟨?_, ?_, ?_⟩
  · intro cfg k v h
    simp only [constructorRegistry, mergeRegistry, h]
  · intro cfg k h
    simp only [constructorRegistry, mergeRegistry, h]
  · funext k
    rfl

/-- Witness for C9 at a concrete configuration registry: the supplied key wins
with its whole entry, an absent key falls back to the default, and the
no-configuration case is the default registry. -/
theorem constructorRegistry_spec_witness :
    constructorRegistry (some regUpdateSample) "a" = some cfgBogus ∧
    constructorRegistry (some regUpdateSample) "b" = createDefaultJobTypeRegistry "b" ∧
    constructorRegistry none = createDefaultJobTypeRegistry :=
  ⟨constructorRegistry_spec.1 regUpdateSample "a" cfgBogus rfl,
   constructorRegistry_spec.2.1 regUpdateSample "b" rfl,
   constructorRegistry_spec.2.2⟩

/-- C1 counterexample: at a concrete job whose type name is absent from the
(empty) registry, handleNewTask does make an outbound protocol-client call
(the unconditional account lookup) and, when that lookup fails, it raises —
contradicting the claim that routing of an unknown job type performs no
client call and never raises. -/
theorem handleNewTask_absentType_counterexample :
    (handleNewTask envAccountDown jobUnknown none).1.any isClientCall = true ∧
    (handleNewTask envAccountDown jobUnknown none).2 = some "rpc down" := by
  exact ⟨by decide, by decide⟩

/-- C1 amended: handleNewTask unconditionally performs exactly one outbound
protocol-client call, the account lookup done for debug logging; a failure of
that lookup propagates (handleNewTask raises) before any routing.  When the
lookup succeeds and the job-type name is absent from the registry,
handleNewTask makes no further client call, performs no protocol call on the
job, raises nothing, logs a warning and returns with state unchanged. -/
theorem handleNewTask_absentType_amended (env : Env) (job : AcpJob)
    (memoToSign : Option AcpMemo) :
    (∀ e, env.client.getAccountByJobId (strToNum (toString job.id)) = Except.error e →
      (handleNewTask env job memoToSign).2 = some e ∧
      protocolCalls (handleNewTask env job memoToSign).1 = []) ∧
    (∀ a, env.client.getAccountByJobId (strToNum (toString job.id)) = Except.ok a →
      lookupJobType env.registry job.name = none →
      handleNewTask env job memoToSign =
        ([Effect.logInfo (onNewTaskDebugMsg job memoToSign),
          Effect.clientCall "getAccountByJobId",
          Effect.logInfo ("[DCA DEBUG] job Account: " ++ toString a),
          Effect.logWarn ("[handleNewTask] No configuration found for job type: " ++
            optStr job.name)], none) ∧
      protocolCalls (handleNewTask env job memoToSign).1 = []) := by
  constructor
  · intro e h
    constructor
    · simp [handleNewTask, getAccountByJobId, h]
    · simp [handleNewTask, getAccountByJobId, h, protocolCalls, List.filter,
        isJobProtocolCall]
  · intro a hacc hlookup
    constructor
    · simp [handleNewTask, getAccountByJobId, hacc, hlookup]
    · simp [handleNewTask, getAccountByJobId, hacc, hlookup, protocolCalls,
        List.filter, isJobProtocolCall]

/-- Witness for the amended C1, at concrete inputs: a failing account lookup
makes handleNewTask raise the same failure with no protocol call on the job;
a healthy lookup with an unknown job type yields exactly the prelude plus the
warning and no raised failure. -/
theorem handleNewTask_absentType_amended_witness :
    ((handleNewTask envAccountDown jobUnknown none).2 = some "rpc down" ∧
      protocolCalls (handleNewTask envAccountDown jobUnknown none).1 = []) ∧
    (handleNewTask envEmptyRegistry jobUnknown none =
        ([Effect.logInfo (onNewTaskDebugMsg jobUnknown none),
          Effect.clientCall "getAccountByJobId",
          Effect.logInfo ("[DCA DEBUG] job Account: " ++ toString 7),
          Effect.logWarn ("[handleNewTask] No configuration found for job type: " ++
            optStr jobUnknown.name)], none) ∧
      protocolCalls (handleNewTask envEmptyRegistry jobUnknown none).1 = []) :=
  ⟨(handleNewTask_absentType_amended envAccountDown jobUnknown none).1 "rpc down" rfl,
   (handleNewTask_absentType_amended envEmptyRegistry jobUnknown none).2 7 rfl rfl⟩

/-- C5: a failure raised by the configured predetermined handler is caught and
logged by the router and never propagates to the caller of handleNewTask; the
result trace contains the handler effects exactly once (the job is not
retried) followed by the error log, and the raised-failure slot is empty. -/
theorem handleNewTask_handlerError_caught (env : Env) (job : AcpJob)
    (memoToSign : Option AcpMemo) (cfg : JobTypeConfig) (a : Nat)
    (h : AcpJob → Option AcpMemo → List Effect × Option String)
    (heffs : List Effect) (e : String)
    (hacc : env.client.getAccountByJobId (strToNum (toString job.id)) = Except.ok a)
    (hlookup : lookupJobType env.registry job.name = some cfg)
    (htype : cfg.handlerType = "predetermined")
    (hhandler : cfg.handler = some h)
    (hrun : h job memoToSign = (heffs, some e)) :
    handleNewTask env job memoToSign =
      (Effect.logInfo (onNewTaskDebugMsg job memoToSign) ::
        Effect.clientCall "getAccountByJobId" ::
        Effect.logInfo ("[DCA DEBUG] job Account: " ++ toString a) ::
        (heffs ++
          [Effect.logError ("[handleNewTask] Error in predetermined handler for " ++
            optStr job.name ++ ":")]), none) := by
  simp [handleNewTask, getAccountByJobId, hacc, hlookup, htype, hhandler, hrun]

/-- Witness for C5 at a concrete registry entry whose handler performs one
protocol call and then raises: handleNewTask returns normally with the handler
effects recorded once and the error logged. -/
theorem handleNewTask_handlerError_caught_witness :
    handleNewTask envReplyOk jobFixed none =
      (Effect.logInfo (onNewTaskDebugMsg jobFixed none) ::
        Effect.clientCall "getAccountByJobId" ::
        Effect.logInfo ("[DCA DEBUG] job Account: " ++ toString 7) ::
        ([Effect.jobAccept "from handler"] ++
          [Effect.logError ("[handleNewTask] Error in predetermined handler for " ++
            optStr jobFixed.name ++ ":")]), none) :=
  handleNewTask_handlerError_caught envReplyOk jobFixed none cfgThrowing 7
    throwingHandler [Effect.jobAccept "from handler"] "handler blew up"
    rfl rfl rfl rfl rfl

/-- C8: a registry entry carrying a handlerType other than predetermined or
eliza makes the router a silent no-op: the routing result is exactly the
unconditional entry prelude (debug log, account lookup, account log) — the
dispatch branch contributes no protocol call and no log line — and no failure
is raised. -/
theorem handleNewTask_unrecognizedHandlerType (env : Env) (job : AcpJob)
    (memoToSign : Option AcpMemo) (cfg : JobTypeConfig) (a : Nat)
    (hacc : env.client.getAccountByJobId (strToNum (toString job.id)) = Except.ok a)
    (hlookup : lookupJobType env.registry job.name = some cfg)
    (h1 : cfg.handlerType ≠ "predetermined") (h2 : cfg.handlerType ≠ "eliza") :
    handleNewTask env job memoToSign =
      ([Effect.logInfo (onNewTaskDebugMsg job memoToSign),
        Effect.clientCall "getAccountByJobId",
        Effect.logInfo ("[DCA DEBUG] job Account: " ++ toString a)], none) ∧
    protocolCalls (handleNewTask env job memoToSign).1 = [] := by
  constructor
  · simp [handleNewTask, getAccountByJobId, hacc, hlookup, h1, h2]
  · simp [handleNewTask, getAccountByJobId, hacc, hlookup, h1, h2, protocolCalls,
      List.filter, isJobProtocolCall]

/-- Witness for C8 at a concrete registry entry with handlerType "bogus":
routing stops after the entry prelude with nothing raised. -/
theorem handleNewTask_unrecognizedHandlerType_witness :
    handleNewTask envReplyOk jobCustom none =
      ([Effect.logInfo (onNewTaskDebugMsg jobCustom none),
        Effect.clientCall "getAccountByJobId",
        Effect.logInfo ("[DCA DEBUG] job Account: " ++ toString 7)], none) ∧
    protocolCalls (handleNewTask envReplyOk jobCustom none).1 = [] :=
  handleNewTask_unrecognizedHandlerType envReplyOk jobCustom none cfgBogus 7
    rfl rfl (by decide) (by decide)

/-- C4: in the REQUEST phase with proposed next phase NEGOTIATION, the AI
delegation path consults the capability check — the shipped implementation
checkElizaCapability permits every job — and when the check permits, the
protocol calls are exactly one accept followed by one requirement-creation
call; when it does not permit, exactly one reject with a reason string and
zero accept or deliver calls. -/
theorem processJobWithEliza_request_spec :
    (∀ job, checkElizaCapability job = true) ∧
    (∀ (env : Env) (job : AcpJob) (memoToSign : Option AcpMemo),
      job.phase = AcpJobPhases.REQUEST →
      nextPhaseOf memoToSign = some AcpJobPhases.NEGOTIATION →
      env.capability job = true →
      protocolCalls (processJobWithEliza env job memoToSign) =
        [Effect.jobAccept "Job requirement matches agent capability",
         Effect.jobCreateRequirement
           ("Job " ++ toString job.id ++ " accepted, please make payment to proceed")]) ∧
    (∀ (env : Env) (job : AcpJob) (memoToSign : Option AcpMemo),
      job.phase = AcpJobPhases.REQUEST →
      nextPhaseOf memoToSign = some AcpJobPhases.NEGOTIATION →
      env.capability job = false →
      protocolCalls (processJobWithEliza env job memoToSign) =
        [Effect.jobReject "Job requirement does not meet agent capability"] ∧
      acceptCount (processJobWithEliza env job memoToSign) = 0 ∧
      deliverCount (processJobWithEliza env job memoToSign) = 0) := by
  refine ⟨fun _ => rfl, ?_, ?_⟩
  · intro env job memoToSign hphase hnext hcap
    simp [processJobWithEliza, hphase, hnext, hcap, protocolCalls, List.filter,
      isJobProtocolCall]
  · intro env job memoToSign hphase hnext hcap
    refine ⟨?_, ?_, ?_⟩
    · simp [processJobWithEliza, hphase, hnext, hcap, protocolCalls, List.filter,
        isJobProtocolCall]
    · simp [processJobWithEliza, hphase, hnext, hcap, acceptCount, List.filter,
        isAcceptCall]
    · simp [processJobWithEliza, hphase, hnext, hcap, deliverCount, List.filter,
        isDeliverCall]

/-- Witness for C4 at concrete inputs: with the always-permitting shipped
check the trace holds exactly the accept and the requirement creation; with a
capability function returning false it holds exactly the reject. -/
theorem processJobWithEliza_request_spec_witness :
    checkElizaCapability jobReq = true ∧
    protocolCalls (processJobWithEliza envReplyOk jobReq (some memoNeg)) =
      [Effect.jobAccept "Job requirement matches agent capability",
       Effect.jobCreateRequirement
         ("Job " ++ toString jobReq.id ++ " accepted, please make payment to proceed")] ∧
    protocolCalls (processJobWithEliza envNoCapability jobReq (some memoNeg)) =
      [Effect.jobReject "Job requirement does not meet agent capability"] ∧
    acceptCount (processJobWithEliza envNoCapability jobReq (some memoNeg)) = 0 ∧
    deliverCount (processJobWithEliza envNoCapability jobReq (some memoNeg)) = 0 :=
  ⟨processJobWithEliza_request_spec.1 jobReq,
   processJobWithEliza_request_spec.2.1 envReplyOk jobReq (some memoNeg) rfl rfl rfl,
   (processJobWithEliza_request_spec.2.2 envNoCapability jobReq (some memoNeg)
      rfl rfl rfl).1,
   (processJobWithEliza_request_spec.2.2 envNoCapability jobReq (some memoNeg)
      rfl rfl rfl).2.1,
   (processJobWithEliza_request_spec.2.2 envNoCapability jobReq (some memoNeg)
      rfl rfl rfl).2.2⟩

/-- C2 counterexample: in the TRANSACTION/EVALUATION path, a failure raised
during submission (here the runtime connection step throwing) is caught by the
dispatcher and only logged — zero reject calls are made, where the claim
requires exactly one; and a reply that did produce non-empty text but whose
persistence failed yields zero deliver calls, where the claim requires exactly
one deliver on a produced textual deliverable. -/
theorem processJobWithEliza_transaction_counterexample :
    rejectCount (processJobWithEliza envConnFail jobTx (some memoEval)) = 0 ∧
    protocolCalls (processJobWithEliza envConnFail jobTx (some memoEval)) = [] ∧
    deliverCount (processJobWithEliza envMemoryFail jobTx (some memoEval)) = 0 := by
  exact ⟨by decide, by decide, by decide⟩

/-- C2 amended: in the TRANSACTION/EVALUATION path, when the pipeline reply
carries non-empty text and the response persistence succeeds, the protocol
calls are exactly one deliver of the textual deliverable; when the reply text
is empty or the reply callback itself fails, exactly one reject with the fixed
reason string; a failure raised by the connection step or the event emission
before any reply is caught by the dispatcher and only logged — no deliver and
no reject call is made. -/
theorem processJobWithEliza_transaction_amended (env : Env) (job : AcpJob)
    (memoToSign : Option AcpMemo)
    (hphase : job.phase = AcpJobPhases.TRANSACTION)
    (hnext : nextPhaseOf memoToSign = some AcpJobPhases.EVALUATION) :
    (∀ s, env.pipeline = PipelineOutcome.reply (some s) none → s ≠ "" →
      protocolCalls (processJobWithEliza env job memoToSign) =
        [Effect.jobDeliver { type := "text", value := s }]) ∧
    (∀ text memoryError, env.pipeline = PipelineOutcome.reply text memoryError →
      (contentTextTruthy text = false ∨ memoryError.isSome = true) →
      protocolCalls (processJobWithEliza env job memoToSign) =
        [Effect.jobReject "Unable to process job requirement"]) ∧
    (∀ e, env.pipeline = PipelineOutcome.connectionFailure e ∨
        env.pipeline = PipelineOutcome.emitFailure e →
      protocolCalls (processJobWithEliza env job memoToSign) = []) := by
  refine ⟨?_, ?_, ?_⟩
  · intro s hpipe hs
    have hts : contentTextTruthy (some s) = true := by
      simp [contentTextTruthy, Bool.eq_false_iff, String.isEmpty_iff, hs]
    simp [processJobWithEliza, processJobWithElizaAI, hphase, hnext, hpipe, hts,
      protocolCalls, List.filter, isJobProtocolCall]
  · intro text memoryError hpipe hcond
    cases htt : contentTextTruthy text with
    | false =>
      simp [processJobWithEliza, processJobWithElizaAI, hphase, hnext, hpipe, htt,
        protocolCalls, List.filter, isJobProtocolCall]
    | true =>
      rcases hcond with hfalse | hsome
      · rw [htt] at hfalse
        exact absurd hfalse (by decide)
      · rcases memoryError with _ | e
        · exact absurd hsome (by decide)
        · simp [processJobWithEliza, processJobWithElizaAI, hphase, hnext, hpipe, htt,
            protocolCalls, List.filter, isJobProtocolCall]
  · intro e hpipe
    rcases hpipe with hpipe | hpipe <;>
      simp [processJobWithEliza, processJobWithElizaAI, hphase, hnext, hpipe,
        protocolCalls, List.filter, isJobProtocolCall]

/-- Witness for the amended C2 at concrete inputs: a successful textual reply
delivers exactly once; an empty reply rejects exactly once; a connection
failure during submission produces no protocol call at all. -/
theorem processJobWithEliza_transaction_amended_witness :
    protocolCalls (processJobWithEliza envReplyOk jobTx (some memoEval)) =
      [Effect.jobDeliver { type := "text", value := "the answer" }] ∧
    protocolCalls (processJobWithEliza envEmptyReply jobTx (some memoEval)) =
      [Effect.jobReject "Unable to process job requirement"] ∧
    protocolCalls (processJobWithEliza envConnFail jobTx (some memoEval)) = [] :=
  ⟨(processJobWithEliza_transaction_amended envReplyOk jobTx (some memoEval)
      rfl rfl).1 "the answer" rfl (by decide),
   (processJobWithEliza_transaction_amended envEmptyReply jobTx (some memoEval)
      rfl rfl).2.1 none none rfl (Or.inl rfl),
   (processJobWithEliza_transaction_amended envConnFail jobTx (some memoEval)
      rfl rfl).2.2 "ensureConnection failed" (Or.inl rfl)⟩

/-- C10: when the reply callback is invoked with non-empty text but raises
while persisting the response memory, the adapter resolves the submission with
a null deliverable, so the dispatcher rejects the job exactly once and never
delivers, even though a textual reply existed. -/
theorem processJobWithElizaAI_callbackError_rejects (env : Env) (job : AcpJob)
    (memoToSign : Option AcpMemo) (s e : String)
    (hphase : job.phase = AcpJobPhases.TRANSACTION)
    (hnext : nextPhaseOf memoToSign = some AcpJobPhases.EVALUATION)
    (hpipe : env.pipeline = PipelineOutcome.reply (some s) (some e))
    (hs : s ≠ "") :
    (processJobWithElizaAI env job memoToSign).2 = Except.ok none ∧
    rejectCount (processJobWithEliza env job memoToSign) = 1 ∧
    deliverCount (processJobWithEliza env job memoToSign) = 0 := by
  have hts : contentTextTruthy (some s) = true := by
    simp [contentTextTruthy, Bool.eq_false_iff, String.isEmpty_iff, hs]
  refine ⟨?_, ?_, ?_⟩
  · simp [processJobWithElizaAI, hpipe, hts]
  · simp [processJobWithEliza, processJobWithElizaAI, hphase, hnext, hpipe, hts,
      rejectCount, List.filter, isRejectCall]
  · simp [processJobWithEliza, processJobWithElizaAI, hphase, hnext, hpipe, hts,
      deliverCount, List.filter, isDeliverCall]

/-- Witness for C10 at a concrete failing persistence: the submission resolves
to a null deliverable and the dispatcher rejects once and never delivers. -/
theorem processJobWithElizaAI_callbackError_rejects_witness :
    (processJobWithElizaAI envMemoryFail jobTx (some memoEval)).2 = Except.ok none ∧
    rejectCount (processJobWithEliza envMemoryFail jobTx (some memoEval)) = 1 ∧
    deliverCount (processJobWithEliza envMemoryFail jobTx (some memoEval)) = 0 :=
  processJobWithElizaAI_callbackError_rejects envMemoryFail jobTx (some memoEval)
    "the answer" "db down" rfl rfl rfl (by decide)

/-- C3: the connection bootstrapper attempts client construction up to three
times by default, sleeping 2^i seconds (recorded in milliseconds) before the
retry that follows zero-indexed failed attempt i; success on any attempt stops
further retries and start returns normally; when every attempt fails, service
start raises a failure whose message names the registered service, after
exactly three construction attempts. -/
theorem startService_retry_spec :
    (∀ (setup : Nat → Except String Unit) (e0 e1 e2 : String),
      setup 0 = Except.error e0 → setup 1 = Except.error e1 →
      setup 2 = Except.error e2 →
      attemptCount (startService setup).1 = 3 ∧
      sleeps (startService setup).1 = [2 ^ 0 * 1000, 2 ^ 1 * 1000] ∧
      (startService setup).2 =
        some ("Failed to register service " ++ ACP_SERVICE_NAME ++ ": " ++ e2)) ∧
    (∀ (setup : Nat → Except String Unit),
      setup 0 = Except.ok () →
      attemptCount (startService setup).1 = 1 ∧
      sleeps (startService setup).1 = [] ∧
      (startService setup).2 = none) ∧
    (∀ (setup : Nat → Except String Unit) (e0 : String),
      setup 0 = Except.error e0 → setup 1 = Except.ok () →
      attemptCount (startService setup).1 = 2 ∧
      sleeps (startService setup).1 = [2 ^ 0 * 1000] ∧
      (startService setup).2 = none) ∧
    (∀ (setup : Nat → Except String Unit) (e0 e1 : String),
      setup 0 = Except.error e0 → setup 1 = Except.error e1 →
      setup 2 = Except.ok () →
      attemptCount (startService setup).1 = 3 ∧
      sleeps (startService setup).1 = [2 ^ 0 * 1000, 2 ^ 1 * 1000] ∧
      (startService setup).2 = none) := by
  refine ⟨?_, ?_, ?_, ?_⟩
  · intro setup e0 e1 e2 h0 h1 h2
    refine ⟨?_, ?_, ?_⟩ <;>
      simp [startService, setupClientWithRetry, setupLoop, h0, h1, h2,
        attemptCount, sleeps, List.filter, List.filterMap, isSetupAttempt]
  · intro setup h0
    refine ⟨?_, ?_, ?_⟩ <;>
      simp [startService, setupClientWithRetry, setupLoop, h0,
        attemptCount, sleeps, List.filter, List.filterMap, isSetupAttempt]
  · intro setup e0 h0 h1
    refine ⟨?_, ?_, ?_⟩ <;>
      simp [startService, setupClientWithRetry, setupLoop, h0, h1,
        attemptCount, sleeps, List.filter, List.filterMap, isSetupAttempt]
  · intro setup e0 e1 h0 h1 h2
    refine ⟨?_, ?_, ?_⟩ <;>
      simp [startService, setupClientWithRetry, setupLoop, h0, h1, h2,
        attemptCount, sleeps, List.filter, List.filterMap, isSetupAttempt]

/-- Witness for C3 at concrete setup oracles: the always-failing oracle yields
three attempts, the two backoff sleeps and the wrapped failure naming the
service; the immediately-succeeding oracle stops after one attempt; the
fail-once oracle stops after two. -/
theorem startService_retry_spec_witness :
    (attemptCount (startService alwaysFailSetup).1 = 3 ∧
      sleeps (startService alwaysFailSetup).1 = [2 ^ 0 * 1000, 2 ^ 1 * 1000] ∧
      (startService alwaysFailSetup).2 =
        some ("Failed to register service " ++ ACP_SERVICE_NAME ++ ": " ++
          ("construction failed at attempt " ++ toString 2))) ∧
    (attemptCount (startService alwaysOkSetup).1 = 1 ∧
      sleeps (startService alwaysOkSetup).1 = [] ∧
      (startService alwaysOkSetup).2 = none) ∧
    (attemptCount (startService failOnceSetup).1 = 2 ∧
      sleeps (startService failOnceSetup).1 = [2 ^ 0 * 1000] ∧
      (startService failOnceSetup).2 = none) ∧
    (attemptCount (startService failTwiceSetup).1 = 3 ∧
      sleeps (startService failTwiceSetup).1 = [2 ^ 0 * 1000, 2 ^ 1 * 1000] ∧
      (startService failTwiceSetup).2 = none) :=
  ⟨startService_retry_spec.1 alwaysFailSetup
      ("construction failed at attempt " ++ toString 0)
      ("construction failed at attempt " ++ toString 1)
      ("construction failed at attempt " ++ toString 2) rfl rfl rfl,
   startService_retry_spec.2.1 alwaysOkSetup rfl,
   startService_retry_spec.2.2.1 failOnceSetup "first attempt failed" rfl rfl,
   startService_retry_spec.2.2.2 failTwiceSetup
      ("attempt " ++ toString 0 ++ " failed") ("attempt " ++ toString 1 ++ " failed")
      rfl rfl rfl⟩

/-- C7: every forwarding operation passes straight through to the external
protocol client — on success the client result is returned unchanged after a
single client call (no retry), and a client failure is logged and re-raised
unchanged (the same error value) to the caller. -/
theorem forwarding_passthrough_spec :
    (∀ (env : Env) (p s : Option Nat),
      (∀ e, env.client.getActiveJobs p s = Except.error e →
        getActiveJobs env p s =
          ([Effect.clientCall "getActiveJobs",
            Effect.logError "Error getting active jobs:"], Except.error e)) ∧
      (∀ v, env.client.getActiveJobs p s = Except.ok v →
        getActiveJobs env p s = ([Effect.clientCall "getActiveJobs"], Except.ok v))) ∧
    (∀ (env : Env) (p s : Option Nat),
      (∀ e, env.client.getCompletedJobs p s = Except.error e →
        getCompletedJobs env p s =
          ([Effect.clientCall "getCompletedJobs",
            Effect.logError "Error getting completed jobs:"], Except.error e)) ∧
      (∀ v, env.client.getCompletedJobs p s = Except.ok v →
        getCompletedJobs env p s = ([Effect.clientCall "getCompletedJobs"], Except.ok v))) ∧
    (∀ (env : Env) (p s : Option Nat),
      (∀ e, env.client.getCancelledJobs p s = Except.error e →
        getCancelledJobs env p s =
          ([Effect.clientCall "getCancelledJobs",
            Effect.logError "Error getting cancelled jobs:"], Except.error e)) ∧
      (∀ v, env.client.getCancelledJobs p s = Except.ok v →
        getCancelledJobs env p s = ([Effect.clientCall "getCancelledJobs"], Except.ok v))) ∧
    (∀ (env : Env) (p s : Option Nat),
      (∀ e, env.client.getPendingMemoJobs p s = Except.error e →
        getPendingMemoJobs env p s =
          ([Effect.clientCall "getPendingMemoJobs",
            Effect.logError "Error getting pending memo jobs:"], Except.error e)) ∧
      (∀ v, env.client.getPendingMemoJobs p s = Except.ok v →
        getPendingMemoJobs env p s =
          ([Effect.clientCall "getPendingMemoJobs"], Except.ok v))) ∧
    (∀ (env : Env) (jobId : String),
      (∀ e, env.client.getJobById (strToNum jobId) = Except.error e →
        getJobById env jobId =
          ([Effect.clientCall "getJobById",
            Effect.logError "Error getting job by ID:"], Except.error e)) ∧
      (∀ v, env.client.getJobById (strToNum jobId) = Except.ok v →
        getJobById env jobId = ([Effect.clientCall "getJobById"], Except.ok v))) ∧
    (∀ (env : Env) (jobId memoId : String),
      (∀ e, env.client.getMemoById (strToNum jobId) (strToNum memoId) = Except.error e →
        getMemoById env jobId memoId =
          ([Effect.clientCall "getMemoById",
            Effect.logError "Error getting memo by ID:"], Except.error e)) ∧
      (∀ v, env.client.getMemoById (strToNum jobId) (strToNum memoId) = Except.ok v →
        getMemoById env jobId memoId = ([Effect.clientCall "getMemoById"], Except.ok v))) ∧
    (∀ (env : Env) (jobId : String),
      (∀ e, env.client.getAccountByJobId (strToNum jobId) = Except.error e →
        getAccountByJobId env jobId =
          ([Effect.clientCall "getAccountByJobId",
            Effect.logError "Error getting account by job ID:"], Except.error e)) ∧
      (∀ v, env.client.getAccountByJobId (strToNum jobId) = Except.ok v →
        getAccountByJobId env jobId = ([Effect.clientCall "getAccountByJobId"], Except.ok v))) ∧
    (∀ (env : Env) (ca pa : String),
      (∀ e, env.client.getByClientAndProvider ca pa = Except.error e →
        getByClientAndProvider env ca pa =
          ([Effect.clientCall "getByClientAndProvider",
            Effect.logError "Error getting account by addresses:"], Except.error e)) ∧
      (∀ v, env.client.getByClientAndProvider ca pa = Except.ok v →
        getByClientAndProvider env ca pa =
          ([Effect.clientCall "getByClientAndProvider"], Except.ok v))) := by
  refine ⟨?_, ?_, ?_, ?_, ?_, ?_, ?_, ?_⟩
  · intro env p s
    exact ⟨fun e h => by simp [getActiveJobs, h], fun v h => by simp [getActiveJobs, h]⟩
  · intro env p s
    exact ⟨fun e h => by simp [getCompletedJobs, h], fun v h => by simp [getCompletedJobs, h]⟩
  · intro env p s
    exact ⟨fun e h => by simp [getCancelledJobs, h], fun v h => by simp [getCancelledJobs, h]⟩
  · intro env p s
    exact ⟨fun e h => by simp [getPendingMemoJobs, h], fun v h => by simp [getPendingMemoJobs, h]⟩
  · intro env jobId
    exact ⟨fun e h => by simp [getJobById, h], fun v h => by simp [getJobById, h]⟩
  · intro env jobId memoId
    exact ⟨fun e h => by simp [getMemoById, h], fun v h => by simp [getMemoById, h]⟩
  · intro env jobId
    exact ⟨fun e h => by simp [getAccountByJobId, h], fun v h => by simp [getAccountByJobId, h]⟩
  · intro env ca pa
    exact ⟨fun e h => by simp [getByClientAndProvider, h], fun v h => by simp [getByClientAndProvider, h]⟩

/-- Witness for C7 at a concrete failing client and a concrete healthy client:
each forwarding operation re-raises the client failure unchanged after logging
it, and returns the client value unchanged on success. -/
theorem forwarding_passthrough_spec_witness :
    getActiveJobs envAccountDown (some 1) (some 10) =
      ([Effect.clientCall "getActiveJobs",
        Effect.logError "Error getting active jobs:"], Except.error "client failure") ∧
    getActiveJobs envEmptyRegistry (some 1) (some 10) =
      ([Effect.clientCall "getActiveJobs"], Except.ok [1, 2]) ∧
    getCompletedJobs envEmptyRegistry none none =
      ([Effect.clientCall "getCompletedJobs"], Except.ok [3]) ∧
    getCancelledJobs envAccountDown none none =
      ([Effect.clientCall "getCancelledJobs",
        Effect.logError "Error getting cancelled jobs:"], Except.error "client failure") ∧
    getPendingMemoJobs envEmptyRegistry none none =
      ([Effect.clientCall "getPendingMemoJobs"], Except.ok [4]) ∧
    getJobById envAccountDown "33" =
      ([Effect.clientCall "getJobById",
        Effect.logError "Error getting job by ID:"], Except.error "client failure") ∧
    getMemoById envEmptyRegistry "33" "44" =
      ([Effect.clientCall "getMemoById"], Except.ok (some 6)) ∧
    getAccountByJobId envAccountDown "33" =
      ([Effect.clientCall "getAccountByJobId",
        Effect.logError "Error getting account by job ID:"], Except.error "rpc down") ∧
    getByClientAndProvider envEmptyRegistry "0xc" "0xp" =
      ([Effect.clientCall "getByClientAndProvider"], Except.ok 8) :=
  ⟨(forwarding_passthrough_spec.1 envAccountDown (some 1) (some 10)).1 "client failure" rfl,
   (forwarding_passthrough_spec.1 envEmptyRegistry (some 1) (some 10)).2 [1, 2] rfl,
   (forwarding_passthrough_spec.2.1 envEmptyRegistry none none).2 [3] rfl,
   (forwarding_passthrough_spec.2.2.1 envAccountDown none none).1 "client failure" rfl,
   (forwarding_passthrough_spec.2.2.2.1 envEmptyRegistry none none).2 [4] rfl,
   (forwarding_passthrough_spec.2.2.2.2.1 envAccountDown "33").1 "client failure" rfl,
   (forwarding_passthrough_spec.2.2.2.2.2.1 envEmptyRegistry "33" "44").2 (some 6) rfl,
   (forwarding_passthrough_spec.2.2.2.2.2.2.1 envAccountDown "33").1 "rpc down" rfl,
   (forwarding_passthrough_spec.2.2.2.2.2.2.2 envEmptyRegistry "0xc" "0xp").2 8 rfl⟩

end VirtualsAcp
